import Mathlib

/-
  Verification development for the OSG GRACC analysis script
  (src/index.ts, function graccQuery).

  Shallow embedding notes.
  * JSON numbers and JavaScript numeric values are modelled as exact
    rationals (the concrete values the script handles are small integers
    and decimal aggregates; no claim depends on IEEE rounding).
  * The typed model (Root, computeResult, graccQueryRun) is the translation
    of graccQuery under the scripts own type assertion
    `(await res.json()) as Root`; the side effects of a run are recorded as
    an event trace (HTTP request, console output, file writes).  A file
    write event carries the JSON value being serialized; the textual
    formatting flags of JSON.stringify are abstracted.
  * The dynamic model (JsVal, jsGet, extractDyn) gives the JavaScript
    semantics of the unguarded field accesses of lines 126-148 on an
    arbitrary parsed body: reading a property of undefined or null, or
    calling reduce or map on a non-array, raises a TypeError, modelled as
    Except.error ().  Rendering of a non-integer rational inside a string
    coercion approximates the JavaScript number-to-string form; only
    console text depends on it.
  * JavaScript Date and its toISOString are runtime builtins, not code of
    this repository; a Date is modelled by its observable ISO rendering.
-/

/-- A JSON value (for query bodies, serialized outputs and logged values). -/
inductive Json where
  | null
  | bool (b : Bool)
  | num (q : ℚ)
  | str (s : String)
  | arr (elems : List Json)
  | obj (fields : List (String × Json))

/-- Look a key up in a JSON object; none on a non-object or missing key. -/
def Json.getField? : Json → String → Option Json
  | .obj fs, k => fs.lookup k
  | _, _ => none

/-- Follow a path of keys through nested JSON objects. -/
def Json.getPath? : Json → List String → Option Json
  | j, [] => some j
  | j, k :: ks =>
    match j.getField? k with
    | some v => Json.getPath? v ks
    | none => none

/-- A JavaScript Date, modelled by its observable toISOString rendering
(Date is a runtime builtin, not code of this repository). -/
structure JSDate where
  toISOString : String

/-- The `string | Date` argument type of graccQuery (src/index.ts lines 25-26). -/
inductive StrOrDate where
  | str (s : String)
  | date (d : JSDate)

/-- Lines 30-31: `typeof start === "string" ? start : start.toISOString()`. -/
def strOrDateToStr : StrOrDate → String
  | .str s => s
  | .date d => d.toISOString

/-- src/index.ts line 5. -/
def responseBodyOutputFile : Option String := some "responseOut.json"

/-- src/index.ts line 6. -/
def dataOutputFile : Option String := some "dataOut.json"

/-- src/index.ts line 8. -/
def summaryIndex : String := "gracc.osg.summary"

/-- src/index.ts line 9. -/
def endpoint : String := "https://gracc.opensciencegrid.org:443/q"

/-- The sum sub-aggregation values of a bucket (`{ value: number }`),
as used at lines 138-146. -/
structure MetricValue where
  value : ℚ

/-- One date_histogram bucket of the response, with the fields the script
reads: key_as_string, doc_count, CoreHours.value, Njobs.value. -/
structure Bucket where
  key_as_string : String
  doc_count : ℚ
  CoreHours : MetricValue
  Njobs : MetricValue

/-- The `_source` of a hit; the script reads only its CoreHours (line 127). -/
structure HitSource where
  CoreHours : ℚ

/-- One element of body.hits.hits. -/
structure Hit where
  _source : HitSource

/-- body.hits. -/
structure Hits where
  hits : List Hit

/-- body.aggregations.EndTime. -/
structure EndTimeAgg where
  buckets : List Bucket

/-- body.aggregations. -/
structure Aggregations where
  EndTime : EndTimeAgg

/-- The Root response-body type (imported from ./response in the source;
its fields are the ones graccQuery reads: took, hits.hits,
aggregations.EndTime.buckets). -/
structure Root where
  took : ℚ
  hits : Hits
  aggregations : Aggregations

/-- src/index.ts lines 11-15. -/
structure JobDataPoint where
  timestamp : String
  nJobs : ℚ
  cpuHours : ℚ

/-- src/index.ts lines 17-22. -/
structure AnalysisResult where
  took : ℚ
  sumJobs : ℚ
  sumCpuHours : ℚ
  dataPoints : List JobDataPoint

/-- JavaScript `a || b` on numbers (a JavaScript number is falsy exactly
when it is 0 or NaN; NaN does not arise in the exact-rational model). -/
def jsOrNum (a b : ℚ) : ℚ := if a = 0 then b else a

/-- Lines 126-129: `body.hits.hits.reduce((acc, hit) => acc + hit._source.CoreHours, 0)`. -/
def totalJobs (body : Root) : ℚ :=
  body.hits.hits.foldl (fun acc hit => acc + hit._source.CoreHours) 0

/-- Lines 135-148: the `result` object.  Note the sumCpuHours reducer of
lines 139-142 is `acc + bucket.CoreHours.value || bucket.doc_count`, which
JavaScript operator precedence groups as
`(acc + bucket.CoreHours.value) || bucket.doc_count`. -/
def computeResult (body : Root) : AnalysisResult :=
  let buckets := body.aggregations.EndTime.buckets
  { took := body.took
    sumJobs := buckets.foldl (fun acc bucket => acc + bucket.Njobs.value) 0
    sumCpuHours :=
      buckets.foldl
        (fun acc bucket => jsOrNum (acc + bucket.CoreHours.value) bucket.doc_count) 0
    dataPoints :=
      buckets.map fun bucket =>
        { timestamp := bucket.key_as_string
          nJobs := bucket.Njobs.value
          cpuHours := bucket.CoreHours.value } }

/-- The query body built at lines 36-98, as the JSON value that
JSON.stringify serializes (an `undefined`-valued key, the absent offset,
is dropped by JSON.stringify, so the offset key is present exactly when
the offset argument is). -/
def graccQueryBody (startStr endStr interval : String) (offset : Option ℕ) : Json :=
  Json.obj
    [("size", Json.num 100),
     ("query", Json.obj
       [("bool", Json.obj
         [("filter", Json.arr
           [Json.obj [("range", Json.obj
             [("EndTime", Json.obj
               [("gte", Json.str startStr), ("lt", Json.str endStr)])])],
            Json.obj [("term", Json.obj [("ResourceType", Json.str "Batch")])],
            Json.obj [("bool", Json.obj
              [("must_not", Json.arr
                [Json.obj [("terms", Json.obj
                  [("SiteName", Json.arr
                    [Json.str "NONE", Json.str "Generic", Json.str "Obsolete"])])],
                 Json.obj [("terms", Json.obj
                  [("VOName", Json.arr
                    [Json.str "Unknown", Json.str "unknown", Json.str "other"])])]])])]])])]),
     ("aggs", Json.obj
       [("EndTime", Json.obj
         [("date_histogram", Json.obj
           ([("field", Json.str "EndTime"),
             ("fixed_interval", Json.str interval)]
            ++ (match offset with
                | some n => [("offset", Json.str ("-" ++ toString n ++ "s"))]
                | none => [])
            ++ [("extended_bounds", Json.obj
                 [("min", Json.str startStr), ("max", Json.str endStr)])])),
          ("aggs", Json.obj
            [("CoreHours", Json.obj [("sum", Json.obj [("field", Json.str "CoreHours")])]),
             ("Njobs", Json.obj [("sum", Json.obj [("field", Json.str "Njobs")])])])])])]

/-- The single fetch of lines 100-104. -/
structure HttpRequest where
  url : String
  method : String
  headers : List (String × String)
  body : Json

/-- Encoder for a hit, over the fields the embedded Root carries. -/
def hitToJson (h : Hit) : Json :=
  Json.obj [("_source", Json.obj [("CoreHours", Json.num h._source.CoreHours)])]

/-- Encoder for a bucket. -/
def bucketToJson (b : Bucket) : Json :=
  Json.obj
    [("key_as_string", Json.str b.key_as_string),
     ("doc_count", Json.num b.doc_count),
     ("CoreHours", Json.obj [("value", Json.num b.CoreHours.value)]),
     ("Njobs", Json.obj [("value", Json.num b.Njobs.value)])]

/-- JSON.stringify(body) at line 121, over the embedded Root value. -/
def rootToJson (r : Root) : Json :=
  Json.obj
    [("took", Json.num r.took),
     ("hits", Json.obj [("hits", Json.arr (r.hits.hits.map hitToJson))]),
     ("aggregations", Json.obj
       [("EndTime", Json.obj
         [("buckets", Json.arr (r.aggregations.EndTime.buckets.map bucketToJson))])])]

/-- Encoder for one data point, key order as in the object literal of lines 143-147. -/
def jobDataPointToJson (p : JobDataPoint) : Json :=
  Json.obj
    [("timestamp", Json.str p.timestamp),
     ("nJobs", Json.num p.nJobs),
     ("cpuHours", Json.num p.cpuHours)]

/-- JSON.stringify(result, null, 2) at line 153, key order as at lines 136-148. -/
def analysisResultToJson (r : AnalysisResult) : Json :=
  Json.obj
    [("took", Json.num r.took),
     ("sumJobs", Json.num r.sumJobs),
     ("sumCpuHours", Json.num r.sumCpuHours),
     ("dataPoints", Json.arr (r.dataPoints.map jobDataPointToJson))]

/-- An observable side effect of a graccQuery run. -/
inductive Event where
  | httpRequest (req : HttpRequest)
  | consoleError (msg : String)
  | consoleLog (v : Json)
  | fileWrite (path : String) (content : Json)

/-- The outcome of the single fetch: either a non-OK response (whose parsed
body, logged at line 108, is arbitrary JSON) or an OK response carrying the
body asserted as Root at line 116. -/
inductive FetchOutcome where
  | errorResp (errBody : Json)
  | okResp (body : Root)

/-- res.ok of the fetch outcome. -/
def FetchOutcome.isOk : FetchOutcome → Bool
  | .errorResp _ => false
  | .okResp _ => true

/-- The body of graccQuery (src/index.ts lines 24-159) as a function from
its arguments and the fetch outcome to the event trace and return value
(null is Option.none).  The `end` parameter is named endArg (end is a
Lean keyword). -/
def graccQueryRun (start endArg : StrOrDate) (interval : String)
    (offset : Option ℕ) (resp : FetchOutcome) : List Event × Option AnalysisResult :=
  let startStr := strOrDateToStr start
  let endStr := strOrDateToStr endArg
  let req : HttpRequest :=
    { url := endpoint ++ "/" ++ summaryIndex ++ "/_search?pretty"
      method := "POST"
      headers := [("Content-Type", "application/json")]
      body := graccQueryBody startStr endStr interval offset }
  match resp with
  | .errorResp errBody =>
    ([Event.httpRequest req,
      Event.consoleError "GRACC query failed",
      Event.consoleLog errBody], none)
  | .okResp body =>
    let responseWrites :=
      match responseBodyOutputFile with
      | some f => [Event.fileWrite f (rootToJson body)]
      | none => []
    let result := computeResult body
    let dataWrites :=
      match dataOutputFile with
      | some f => [Event.fileWrite f (analysisResultToJson result)]
      | none => []
    (Event.httpRequest req ::
       (responseWrites ++ Event.consoleLog (Json.num (totalJobs body)) :: dataWrites),
     some result)

/-- The HTTP requests of a trace. -/
def requestsOf (events : List Event) : List HttpRequest :=
  events.filterMap fun e =>
    match e with
    | .httpRequest r => some r
    | _ => none

/-- The file writes of a trace. -/
def writesOf (events : List Event) : List (String × Json) :=
  events.filterMap fun e =>
    match e with
    | .fileWrite p c => some (p, c)
    | _ => none

/-- A JavaScript runtime value, as seen by the unguarded field accesses of
lines 126-148 when the parsed body is arbitrary JSON (plus undefined and
NaN, which arise during evaluation). -/
inductive JsVal where
  | undefined
  | null
  | nan
  | bool (b : Bool)
  | num (q : ℚ)
  | str (s : String)
  | arr (elems : List JsVal)
  | obj (fields : List (String × JsVal))

/-- Number-to-string coercion; exact for integers (the only case produced
by the data this script handles), approximate for other rationals. -/
def jsNumToString (q : ℚ) : String :=
  if q.den = 1 then toString q.num else toString q

mutual
/-- JavaScript ToString on a value (used only inside string concatenation). -/
def jsValToString : JsVal → String
  | .undefined => "undefined"
  | .null => "null"
  | .nan => "NaN"
  | .bool b => if b then "true" else "false"
  | .num q => jsNumToString q
  | .str s => s
  | .arr xs => jsListToString xs
  | .obj _ => "[object Object]"
/-- Array join with commas, eliding null and undefined elements, as
Array.prototype.toString does. -/
def jsListToString : List JsVal → String
  | [] => ""
  | x :: xs =>
    (match x with
     | .undefined => ""
     | .null => ""
     | v => jsValToString v)
    ++ (match xs with
        | [] => ""
        | _ => "," ++ jsListToString xs)
end

/-- JavaScript ToPrimitive (default hint): plain arrays and objects go
through their toString. -/
def jsPrimitive : JsVal → JsVal
  | .arr xs => .str (jsListToString xs)
  | .obj _ => .str "[object Object]"
  | v => v

/-- JavaScript ToNumber on a primitive, none meaning NaN.  A string operand
never reaches this inside jsAdd (strings take the concatenation branch),
and arrays and objects are already gone through jsPrimitive. -/
def jsToNumber? : JsVal → Option ℚ
  | .num q => some q
  | .null => some 0
  | .bool b => some (if b then 1 else 0)
  | _ => none

/-- The JavaScript binary + operator. -/
def jsAdd (a b : JsVal) : JsVal :=
  match jsPrimitive a, jsPrimitive b with
  | .str sa, pb => .str (sa ++ jsValToString pb)
  | pa, .str sb => .str (jsValToString pa ++ sb)
  | pa, pb =>
    match jsToNumber? pa, jsToNumber? pb with
    | some x, some y => .num (x + y)
    | _, _ => .nan

/-- JavaScript truthiness. -/
def jsTruthy : JsVal → Bool
  | .undefined => false
  | .null => false
  | .nan => false
  | .bool b => b
  | .num q => decide (q ≠ 0)
  | .str s => decide (s ≠ "")
  | .arr _ => true
  | .obj _ => true

/-- Property access `v.k`: throws a TypeError (Except.error) on undefined
and null, yields the field or undefined on an object, and undefined on any
other value. -/
def jsGet : JsVal → String → Except Unit JsVal
  | .undefined, _ => .error ()
  | .null, _ => .error ()
  | .obj fs, k => .ok ((fs.lookup k).getD .undefined)
  | _, _ => .ok .undefined

/-- Calling .reduce or .map on a value: succeeds with the elements exactly
on an array; on anything else the method is undefined or absent and the
call throws. -/
def jsAsList : JsVal → Except Unit (List JsVal)
  | .arr xs => .ok xs
  | _ => .error ()

/-- One step of the reduce at lines 126-129 on a raw value. -/
def hitStepDyn (acc hit : JsVal) : Except Unit JsVal := do
  let src ← jsGet hit "_source"
  let ch ← jsGet src "CoreHours"
  pure (jsAdd acc ch)

/-- One step of the sumJobs reduce at line 138 on a raw value. -/
def jobsStepDyn (acc b : JsVal) : Except Unit JsVal := do
  let nj ← jsGet b "Njobs"
  let v ← jsGet nj "value"
  pure (jsAdd acc v)

/-- One step of the sumCpuHours reduce at lines 139-142 on a raw value
(doc_count is read only when the accumulated sum is falsy, since || is
short-circuiting). -/
def cpuStepDyn (acc b : JsVal) : Except Unit JsVal := do
  let co ← jsGet b "CoreHours"
  let v ← jsGet co "value"
  let s := jsAdd acc v
  if jsTruthy s then pure s
  else jsGet b "doc_count"

/-- One element of the dataPoints map at lines 143-147 on a raw value. -/
def pointDyn (b : JsVal) : Except Unit JsVal := do
  let ts ← jsGet b "key_as_string"
  let nj ← jsGet b "Njobs"
  let njv ← jsGet nj "value"
  let co ← jsGet b "CoreHours"
  let cov ← jsGet co "value"
  pure (JsVal.obj [("timestamp", ts), ("nJobs", njv), ("cpuHours", cov)])

/-- Lines 126-148 run on an arbitrary parsed body, in source evaluation
order, yielding the logged totalJobs value and the result object, or the
TypeError raised by an unguarded access. -/
def extractDyn (body : JsVal) : Except Unit (JsVal × JsVal) := do
  let h1 ← jsGet body "hits"
  let h2 ← jsGet h1 "hits"
  let hitsList ← jsAsList h2
  let totalJobsVal ← hitsList.foldlM hitStepDyn (JsVal.num 0)
  let a1 ← jsGet body "aggregations"
  let a2 ← jsGet a1 "EndTime"
  let bucketsVal ← jsGet a2 "buckets"
  let tookVal ← jsGet body "took"
  let bl1 ← jsAsList bucketsVal
  let sumJobsVal ← bl1.foldlM jobsStepDyn (JsVal.num 0)
  let bl2 ← jsAsList bucketsVal
  let sumCpuVal ← bl2.foldlM cpuStepDyn (JsVal.num 0)
  let bl3 ← jsAsList bucketsVal
  let points ← bl3.mapM pointDyn
  pure (totalJobsVal,
        JsVal.obj
          [("took", tookVal),
           ("sumJobs", sumJobsVal),
           ("sumCpuHours", sumCpuVal),
           ("dataPoints", JsVal.arr points)])

/-- The numeric case of a raw value. -/
def asNum? : JsVal → Option ℚ
  | .num q => some q
  | _ => none

/-- The string case of a raw value. -/
def asStr? : JsVal → Option String
  | .str s => some s
  | _ => none

/-- A raw value has the shape of a hit when the accesses the script makes
on it succeed and reach a number. -/
def decodeHit (v : JsVal) : Option Hit := do
  let s ← (jsGet v "_source").toOption
  let w ← (jsGet s "CoreHours").toOption
  let q ← asNum? w
  pure ⟨⟨q⟩⟩

/-- A raw value has the shape of a bucket when the accesses the script
makes on it succeed and reach values of the declared types. -/
def decodeBucket (v : JsVal) : Option Bucket := do
  let ksv ← (jsGet v "key_as_string").toOption
  let ks ← asStr? ksv
  let dcv ← (jsGet v "doc_count").toOption
  let dc ← asNum? dcv
  let co ← (jsGet v "CoreHours").toOption
  let cov ← (jsGet co "value").toOption
  let coq ← asNum? cov
  let nj ← (jsGet v "Njobs").toOption
  let njv ← (jsGet nj "value").toOption
  let njq ← asNum? njv
  pure ⟨ks, dc, ⟨coq⟩, ⟨njq⟩⟩

/-- A raw parsed body has the Root shape (the fields took, hits.hits,
aggregations.EndTime.buckets, with their leaf fields of the declared
types) exactly when this decoder succeeds. -/
def decodeRoot (v : JsVal) : Option Root := do
  let tw ← (jsGet v "took").toOption
  let tq ← asNum? tw
  let h1 ← (jsGet v "hits").toOption
  let h2 ← (jsGet h1 "hits").toOption
  let hl ← (jsAsList h2).toOption
  let hitsL ← hl.mapM decodeHit
  let a1 ← (jsGet v "aggregations").toOption
  let a2 ← (jsGet a1 "EndTime").toOption
  let bv ← (jsGet a2 "buckets").toOption
  let bl ← (jsAsList bv).toOption
  let bucketsL ← bl.mapM decodeBucket
  pure ⟨tq, ⟨hitsL⟩, ⟨⟨bucketsL⟩⟩⟩

/-- A one-bucket OK response body whose bucket holds jobs that reported
zero core-hours: doc_count 5, CoreHours.value 0, Njobs.value 0. -/
def cpuBugBody : Root :=
  { took := 7
    hits := ⟨[]⟩
    aggregations := ⟨⟨[{ key_as_string := "2023-01-11T00:00:00.000Z"
                         doc_count := 5
                         CoreHours := ⟨0⟩
                         Njobs := ⟨0⟩ }]⟩⟩ }

/-- A raw parsed body of the Root shape (empty hits and buckets). -/
def dynOkBody : JsVal :=
  JsVal.obj
    [("took", JsVal.num 3),
     ("hits", JsVal.obj [("hits", JsVal.arr [])]),
     ("aggregations", JsVal.obj [("EndTime", JsVal.obj [("buckets", JsVal.arr [])])])]

theorem except_ok_bind {ε α β : Type} (a : α) (f : α → Except ε β) :
    (Except.ok a : Except ε α) >>= f = f a := rfl

theorem except_pure {ε α : Type} (a : α) : (pure a : Except ε α) = Except.ok a := rfl

theorem except_toOption_eq_some {ε α : Type} (e : Except ε α) (a : α) :
    e.toOption = some a ↔ e = Except.ok a := by
  cases e <;> simp [Except.toOption]

theorem asNum?_eq_some (v : JsVal) (q : ℚ) : asNum? v = some q ↔ v = JsVal.num q := by
  cases v <;> simp [asNum?]

theorem asStr?_eq_some (v : JsVal) (s : String) : asStr? v = some s ↔ v = JsVal.str s := by
  cases v <;> simp [asStr?]

/-- C1: the claim says sumJobs is the sum of Njobs.value over the buckets
(true) and sumCpuHours the sum of CoreHours.value over them; on a body
whose single bucket has CoreHours.value 0 and doc_count 5, the code
produces sumCpuHours = 5 (operator precedence makes the reducer
substitute doc_count when the running sum is falsy), while the sum of
CoreHours.value is 0. -/
theorem graccQuery_sumCpuHours_code_bug :
    (computeResult cpuBugBody).sumJobs =
        (cpuBugBody.aggregations.EndTime.buckets.map fun b => b.Njobs.value).sum
    ∧ (computeResult cpuBugBody).sumCpuHours = 5
    ∧ (cpuBugBody.aggregations.EndTime.buckets.map fun b => b.CoreHours.value).sum = 0
    ∧ (computeResult cpuBugBody).sumCpuHours ≠
        (cpuBugBody.aggregations.EndTime.buckets.map fun b => b.CoreHours.value).sum := by
  refine ⟨?_, ?_, ?_, ?_⟩ <;> norm_num [computeResult, cpuBugBody, jsOrNum]

/-- C2: dataPoints has exactly one entry per bucket, in the order the
buckets arrived, and entry i carries the bucket's key_as_string,
Njobs.value and CoreHours.value. -/
theorem graccQuery_dataPoints_shape (body : Root) (i : ℕ) :
    (computeResult body).dataPoints.length = body.aggregations.EndTime.buckets.length
    ∧ (computeResult body).dataPoints[i]? =
        (body.aggregations.EndTime.buckets[i]?).map fun b =>
          ({ timestamp := b.key_as_string
             nJobs := b.Njobs.value
             cpuHours := b.CoreHours.value } : JobDataPoint) := by
  constructor
  · simp [computeResult]
  · simp [computeResult]

/-- C3: graccQuery returns null exactly when the response is non-OK, after
logging an error; an OK response always yields a non-null result. -/
theorem graccQuery_null_iff_notOk (s e : StrOrDate) (interval : String)
    (offset : Option ℕ) (resp : FetchOutcome) :
    ((graccQueryRun s e interval offset resp).2 = none ↔ resp.isOk = false)
    ∧ (resp.isOk = false →
        Event.consoleError "GRACC query failed" ∈ (graccQueryRun s e interval offset resp).1) := by
  cases resp <;> simp [graccQueryRun, FetchOutcome.isOk]

theorem graccQuery_null_iff_notOk_witness :
    (graccQueryRun (StrOrDate.str "2023-01-10") (StrOrDate.str "2023-01-11") "1h" none
        (FetchOutcome.errorResp Json.null)).2 = none
    ∧ Event.consoleError "GRACC query failed" ∈
        (graccQueryRun (StrOrDate.str "2023-01-10") (StrOrDate.str "2023-01-11") "1h" none
          (FetchOutcome.errorResp Json.null)).1 := by
  have h := graccQuery_null_iff_notOk (StrOrDate.str "2023-01-10") (StrOrDate.str "2023-01-11")
    "1h" none (FetchOutcome.errorResp Json.null)
  exact ⟨h.1.mpr rfl, h.2 rfl⟩

/-- C4: the constructed query body has the range filter on EndTime with
gte = start and lt = end, the term filter ResourceType = Batch, the
must_not exclusions of SiteName and VOName, a date_histogram aggregation
on EndTime with sum sub-aggregations over CoreHours and Njobs, and Date
arguments are rendered via toISOString. -/
theorem graccQuery_query_structure (s e : StrOrDate) (interval : String) (offset : Option ℕ) :
    (graccQueryBody (strOrDateToStr s) (strOrDateToStr e) interval offset).getPath?
        ["query", "bool", "filter"] =
      some (Json.arr
        [Json.obj [("range", Json.obj
           [("EndTime", Json.obj
             [("gte", Json.str (strOrDateToStr s)), ("lt", Json.str (strOrDateToStr e))])])],
         Json.obj [("term", Json.obj [("ResourceType", Json.str "Batch")])],
         Json.obj [("bool", Json.obj
           [("must_not", Json.arr
             [Json.obj [("terms", Json.obj
               [("SiteName", Json.arr
                 [Json.str "NONE", Json.str "Generic", Json.str "Obsolete"])])],
              Json.obj [("terms", Json.obj
               [("VOName", Json.arr
                 [Json.str "Unknown", Json.str "unknown", Json.str "other"])])]])])]])
    ∧ (graccQueryBody (strOrDateToStr s) (strOrDateToStr e) interval offset).getPath?
        ["aggs", "EndTime", "date_histogram", "field"] = some (Json.str "EndTime")
    ∧ (graccQueryBody (strOrDateToStr s) (strOrDateToStr e) interval offset).getPath?
        ["aggs", "EndTime", "aggs", "CoreHours", "sum", "field"] = some (Json.str "CoreHours")
    ∧ (graccQueryBody (strOrDateToStr s) (strOrDateToStr e) interval offset).getPath?
        ["aggs", "EndTime", "aggs", "Njobs", "sum", "field"] = some (Json.str "Njobs")
    ∧ ∀ d : JSDate, strOrDateToStr (StrOrDate.date d) = d.toISOString :=
  ⟨rfl, rfl, rfl, rfl, fun _ => rfl⟩

/-- C5 counterexample: for offset 5 the date_histogram carries the string
"-5s", not the number 5 the caller provided. -/
theorem graccQuery_offset_not_verbatim :
    (graccQueryBody "2023-01-10T19:22:28.000Z" "2023-01-11T19:22:28.000Z" "1h" (some 5)).getPath?
        ["aggs", "EndTime", "date_histogram", "offset"] = some (Json.str "-5s")
    ∧ Json.str "-5s" ≠ Json.num 5 :=
  ⟨rfl, fun h => Json.noConfusion h⟩

/-- C5 amended: the interval string is carried verbatim in fixed_interval;
a provided offset n is carried as the string "-ns" (negated, in seconds),
and the offset key is omitted when no offset is provided; no
interval/offset combination is treated specially. -/
theorem graccQuery_interval_offset_passthrough (startStr endStr interval : String)
    (offset : Option ℕ) :
    (graccQueryBody startStr endStr interval offset).getPath?
        ["aggs", "EndTime", "date_histogram", "fixed_interval"] = some (Json.str interval)
    ∧ (graccQueryBody startStr endStr interval offset).getPath?
        ["aggs", "EndTime", "date_histogram", "offset"] =
      offset.map fun n => Json.str ("-" ++ toString n ++ "s") := by
  cases offset <;> exact ⟨rfl, rfl⟩

/-- C6: on an OK response the run writes the serialized body to
responseOut.json and the serialized derived result to dataOut.json. -/
theorem graccQuery_writes_outputs (s e : StrOrDate) (interval : String)
    (offset : Option ℕ) (body : Root) :
    writesOf (graccQueryRun s e interval offset (FetchOutcome.okResp body)).1 =
      [("responseOut.json", rootToJson body),
       ("dataOut.json", analysisResultToJson (computeResult body))] := rfl

/-- C8: every run issues exactly one HTTP request, the POST of the query
body, whatever the response outcome is; in particular no retry follows a
non-OK response. -/
theorem graccQuery_single_request (s e : StrOrDate) (interval : String)
    (offset : Option ℕ) (resp : FetchOutcome) :
    requestsOf (graccQueryRun s e interval offset resp).1 =
      [{ url := endpoint ++ "/" ++ summaryIndex ++ "/_search?pretty"
         method := "POST"
         headers := [("Content-Type", "application/json")]
         body := graccQueryBody (strOrDateToStr s) (strOrDateToStr e) interval offset }] := by
  cases resp <;> rfl

/-- C9: on a non-OK response the run performs no file write and returns
null. -/
theorem graccQuery_error_no_writes (s e : StrOrDate) (interval : String)
    (offset : Option ℕ) (errBody : Json) :
    writesOf (graccQueryRun s e interval offset (FetchOutcome.errorResp errBody)).1 = []
    ∧ (graccQueryRun s e interval offset (FetchOutcome.errorResp errBody)).2 = none :=
  ⟨rfl, rfl⟩

/-- C10: the returned AnalysisResult depends only on took and the EndTime
buckets; two OK bodies agreeing there yield equal results whatever their
hits are. -/
theorem graccQuery_result_ignores_hits (b1 b2 : Root) (htook : b1.took = b2.took)
    (hbuckets : b1.aggregations.EndTime.buckets = b2.aggregations.EndTime.buckets) :
    computeResult b1 = computeResult b2 := by
  simp [computeResult, htook, hbuckets]

theorem graccQuery_result_ignores_hits_witness :
    computeResult { took := 1, hits := ⟨[]⟩, aggregations := ⟨⟨[]⟩⟩ } =
      computeResult { took := 1, hits := ⟨[⟨⟨42⟩⟩]⟩, aggregations := ⟨⟨[]⟩⟩ } :=
  graccQuery_result_ignores_hits _ _ rfl rfl

theorem hitStepDyn_ok (acc v : JsVal) (h : Hit) (hd : decodeHit v = some h) :
    hitStepDyn acc v = Except.ok (jsAdd acc (JsVal.num h._source.CoreHours)) := by
  simp only [decodeHit, Option.bind_eq_bind, Option.bind_eq_some, except_toOption_eq_some,
    asNum?_eq_some, Option.pure_def, Option.some.injEq] at hd
  obtain ⟨s, hs, w, hw, q, hq, hh⟩ := hd
  subst hq
  subst hh
  simp only [hitStepDyn, hs, hw, except_ok_bind, except_pure]

theorem foldlM_hits_ok (l : List JsVal) (hl : List Hit)
    (hd : l.mapM decodeHit = some hl) :
    ∀ acc : JsVal, ∃ out, l.foldlM hitStepDyn acc = Except.ok out := by
  induction l generalizing hl with
  | nil => exact fun acc => ⟨acc, rfl⟩
  | cons x xs ih =>
    intro acc
    simp only [List.mapM_cons, Option.bind_eq_bind, Option.bind_eq_some, Option.pure_def,
      Option.some.injEq] at hd
    obtain ⟨y, hy, ys, hys, -⟩ := hd
    rw [List.foldlM_cons, hitStepDyn_ok acc x y hy, except_ok_bind]
    exact ih ys hys _

theorem decodeBucket_elim (v : JsVal) (b : Bucket) (hd : decodeBucket v = some b) :
    jsGet v "key_as_string" = Except.ok (JsVal.str b.key_as_string)
    ∧ jsGet v "doc_count" = Except.ok (JsVal.num b.doc_count)
    ∧ (∃ co, jsGet v "CoreHours" = Except.ok co
        ∧ jsGet co "value" = Except.ok (JsVal.num b.CoreHours.value))
    ∧ (∃ nj, jsGet v "Njobs" = Except.ok nj
        ∧ jsGet nj "value" = Except.ok (JsVal.num b.Njobs.value)) := by
  simp only [decodeBucket, Option.bind_eq_bind, Option.bind_eq_some, except_toOption_eq_some,
    asNum?_eq_some, asStr?_eq_some, Option.pure_def, Option.some.injEq] at hd
  obtain ⟨ksv, hksv, ks, hks, dcv, hdcv, dc, hdc, co, hco, cov, hcov, coq, hcoq,
    nj, hnj, njv, hnjv, njq, hnjq, hb⟩ := hd
  subst hks
  subst hdc
  subst hcoq
  subst hnjq
  subst hb
  exact ⟨hksv, hdcv, ⟨co, hco, hcov⟩, ⟨nj, hnj, hnjv⟩⟩

theorem jobsStepDyn_ok (acc v : JsVal) (b : Bucket) (hd : decodeBucket v = some b) :
    jobsStepDyn acc v = Except.ok (jsAdd acc (JsVal.num b.Njobs.value)) := by
  obtain ⟨-, -, -, nj, hnj, hnjv⟩ := decodeBucket_elim v b hd
  simp only [jobsStepDyn, hnj, hnjv, except_ok_bind, except_pure]

theorem cpuStepDyn_ok (acc v : JsVal) (b : Bucket) (hd : decodeBucket v = some b) :
    cpuStepDyn acc v = Except.ok
      (if jsTruthy (jsAdd acc (JsVal.num b.CoreHours.value))
       then jsAdd acc (JsVal.num b.CoreHours.value)
       else JsVal.num b.doc_count) := by
  obtain ⟨-, hdc, ⟨co, hco, hcov⟩, -⟩ := decodeBucket_elim v b hd
  cases htr : jsTruthy (jsAdd acc (JsVal.num b.CoreHours.value)) <;>
    simp only [cpuStepDyn, hco, hcov, except_ok_bind, except_pure, hdc, htr,
      Bool.false_eq_true, if_false, if_true]

theorem pointDyn_ok (v : JsVal) (b : Bucket) (hd : decodeBucket v = some b) :
    pointDyn v = Except.ok (JsVal.obj
      [("timestamp", JsVal.str b.key_as_string),
       ("nJobs", JsVal.num b.Njobs.value),
       ("cpuHours", JsVal.num b.CoreHours.value)]) := by
  obtain ⟨hks, -, ⟨co, hco, hcov⟩, nj, hnj, hnjv⟩ := decodeBucket_elim v b hd
  simp only [pointDyn, hks, hnj, hnjv, hco, hcov, except_ok_bind, except_pure]

theorem foldlM_jobs_ok (l : List JsVal) (bl : List Bucket)
    (hd : l.mapM decodeBucket = some bl) :
    ∀ acc : JsVal, ∃ out, l.foldlM jobsStepDyn acc = Except.ok out := by
  induction l generalizing bl with
  | nil => exact fun acc => ⟨acc, rfl⟩
  | cons x xs ih =>
    intro acc
    simp only [List.mapM_cons, Option.bind_eq_bind, Option.bind_eq_some, Option.pure_def,
      Option.some.injEq] at hd
    obtain ⟨y, hy, ys, hys, -⟩ := hd
    rw [List.foldlM_cons, jobsStepDyn_ok acc x y hy, except_ok_bind]
    exact ih ys hys _

theorem foldlM_cpu_ok (l : List JsVal) (bl : List Bucket)
    (hd : l.mapM decodeBucket = some bl) :
    ∀ acc : JsVal, ∃ out, l.foldlM cpuStepDyn acc = Except.ok out := by
  induction l generalizing bl with
  | nil => exact fun acc => ⟨acc, rfl⟩
  | cons x xs ih =>
    intro acc
    simp only [List.mapM_cons, Option.bind_eq_bind, Option.bind_eq_some, Option.pure_def,
      Option.some.injEq] at hd
    obtain ⟨y, hy, ys, hys, -⟩ := hd
    rw [List.foldlM_cons, cpuStepDyn_ok acc x y hy, except_ok_bind]
    exact ih ys hys _

theorem mapM_points_ok (l : List JsVal) (bl : List Bucket)
    (hd : l.mapM decodeBucket = some bl) :
    ∃ outs, l.mapM pointDyn = Except.ok outs := by
  induction l generalizing bl with
  | nil => exact ⟨[], rfl⟩
  | cons x xs ih =>
    simp only [List.mapM_cons, Option.bind_eq_bind, Option.bind_eq_some, Option.pure_def,
      Option.some.injEq] at hd
    obtain ⟨y, hy, ys, hys, -⟩ := hd
    obtain ⟨outs, houts⟩ := ih ys hys
    refine ⟨JsVal.obj
      [("timestamp", JsVal.str y.key_as_string),
       ("nJobs", JsVal.num y.Njobs.value),
       ("cpuHours", JsVal.num y.CoreHours.value)] :: outs, ?_⟩
    rw [List.mapM_cons, pointDyn_ok x y hy, except_ok_bind, houts, except_ok_bind]
    exact except_pure _

/-- C7: graccQuery performs no runtime validation of an OK body beyond the
type assertion: whenever the parsed body has the Root shape the unguarded
field accesses of lines 126-148 all succeed, and on a body lacking that
structure (here the empty object, which has no hits field) they raise a
TypeError instead of returning null or reporting an error. -/
theorem graccQuery_no_validation :
    (∀ (v : JsVal) (r : Root), decodeRoot v = some r →
      ∃ out, extractDyn v = Except.ok out)
    ∧ extractDyn (JsVal.obj []) = Except.error () := by
  constructor
  · intro v r hd
    simp only [decodeRoot, Option.bind_eq_bind, Option.bind_eq_some, except_toOption_eq_some,
      asNum?_eq_some, Option.pure_def, Option.some.injEq] at hd
    obtain ⟨tw, htw, tq, htq, h1, hh1, h2, hh2, hl, hhl, hitsL, hhits, a1, ha1, a2, ha2,
      bv, hbv, bl, hbl, bucketsL, hbuckets, -⟩ := hd
    obtain ⟨tj, htj⟩ := foldlM_hits_ok hl hitsL hhits (JsVal.num 0)
    obtain ⟨sj, hsj⟩ := foldlM_jobs_ok bl bucketsL hbuckets (JsVal.num 0)
    obtain ⟨sc, hsc⟩ := foldlM_cpu_ok bl bucketsL hbuckets (JsVal.num 0)
    obtain ⟨ps, hps⟩ := mapM_points_ok bl bucketsL hbuckets
    refine ⟨(tj, JsVal.obj
      [("took", tw), ("sumJobs", sj), ("sumCpuHours", sc),
       ("dataPoints", JsVal.arr ps)]), ?_⟩
    simp only [extractDyn, hh1, hh2, hhl, htj, ha1, ha2, hbv, htw, hbl, hsj, hsc, hps,
      except_ok_bind, except_pure]
  · rfl

theorem graccQuery_no_validation_witness :
    ∃ out, extractDyn dynOkBody = Except.ok out :=
  graccQuery_no_validation.1 dynOkBody ⟨3, ⟨[]⟩, ⟨⟨[]⟩⟩⟩ rfl
